import Mathlib

/-!
Verification of the `libbacktrace` Python wrapper (`src/libbacktrace/__init__.py`)
against its natural-language specification.

The wrapper code is embedded shallowly: module-level mutable globals become an
explicit `PyModule` record, the native C extension `_libbacktrace` (whose source
is not part of this repository) is represented by a record of its entry points,
and Python exceptions become an `Except PyError` result.  Parts of the system
implemented only in the native extension (the unwinder's frame cap, the
fault-handler registration state machine) are modelled from the specification
and marked as such in their doc comments.
-/

namespace LibBacktrace

/-- Raw frame tuple as returned by the native `_libbacktrace.backtrace_full`:
`(pc, function, filename, lineno)` (indices `f[0]`..`f[3]` in the source). -/
abbrev RawFrame := Nat × Option String × Option String × Nat

/-- `BacktraceFrame` dataclass (lines 49-61 of `__init__.py`):
pc, optional function name, optional source file, line number (0 if unknown). -/
structure BacktraceFrame where
  pc : Nat
  function : Option String
  filename : Option String
  lineno : Nat
deriving DecidableEq

/-- Python truthiness of an `Optional[str]` value: `None` and the empty string
are falsy, every other string is truthy.  Models `if self.filename:`. -/
def pyTruthyStr : Option String → Bool
  | none => false
  | some s => s != ""

/-- Python's `f"0x{pc:x}"` hex payload: lowercase hexadecimal digits of `pc`
with no leading zeros, rendering `0` as `"0"`.  `Nat.toDigits 16` produces
exactly this digit list. -/
def hexStr (n : Nat) : String :=
  String.mk (Nat.toDigits 16 n)

/-- `BacktraceFrame.__str__` (lines 57-61):
`func = self.function or "??"`; if `self.filename` is truthy the frame renders
as `func at filename:lineno`, otherwise as `func at 0x` followed by the pc in
lowercase hex. -/
def BacktraceFrame.str (f : BacktraceFrame) : String :=
  let func := match f.function with
    | none => "??"
    | some s => if s == "" then "??" else s
  if pyTruthyStr f.filename then
    func ++ " at " ++ f.filename.getD "" ++ ":" ++ toString f.lineno
  else
    func ++ " at 0x" ++ hexStr f.pc

/-- Recognizes the sixteen lowercase hexadecimal digit characters. -/
def isHexDigitLower (c : Char) : Bool :=
  ('0' ≤ c && c ≤ '9') || ('a' ≤ c && c ≤ 'f')

/-- Surface of the native C extension `_libbacktrace` as called by the wrapper.
Its source is not part of this repository, so its behaviour is kept abstract
here: each entry point used by the Python code is a field.  The fault-handler
entry points act on a process-global registration state and are modelled
separately (see `FaultHandlerState`). -/
structure NativeModule where
  create_state : Option String → Bool → Nat
  backtrace_full : Nat → Nat → List RawFrame
  get_signals : List String
  get_default_signals : List String

/-- Python exception value as caught by the import guard: its type name and
its message, formatted by the source as `type(e).__name__` plus `": "` plus
`str(e)`. -/
structure PyExc where
  typeName : String
  message : String
deriving DecidableEq

/-- The message stored into `_IMPORT_ERROR` on a failed import (line 46). -/
def formatExc (e : PyExc) : String :=
  e.typeName ++ ": " ++ e.message

/-- Python exceptions the wrapper can raise.  The source raises only
`RuntimeError` (line 81); `attributeError` models calling a method on the
`None` placeholder left when the native import failed; the spec's taxonomy
names a dedicated `InitializationError`, included in the error universe so
that claims about it can be stated, although the wrapper never defines or
raises such a type. -/
inductive PyError where
  | runtimeError (msg : String)
  | attributeError
  | initializationError (msg : String)
deriving DecidableEq

/-- `BacktraceState` wrapper object: holds the opaque handle returned by
`_libbacktrace.create_state` in its `_state` attribute (line 82). -/
structure BacktraceState where
  stateHandle : Nat
deriving DecidableEq

/-- The wrapper module's globals after import: `_libbacktrace` (None on
failure), `_SUPPORTED`, `_IMPORT_ERROR`, and the lazily initialized
`_default_state` (lines 38-46 and 101-102). -/
structure PyModule where
  native : Option NativeModule
  supportedFlag : Bool
  importErrorMsg : Option String
  defaultState : Option BacktraceState

/-- Module import (lines 38-46): on success `_SUPPORTED := True` and
`_IMPORT_ERROR` stays `None`; on failure `_libbacktrace := None`,
`_SUPPORTED := False` and `_IMPORT_ERROR` records the formatted exception.
`_default_state` starts as `None` (line 102). -/
def moduleImport (importResult : Except PyExc NativeModule) : PyModule :=
  match importResult with
  | .ok m =>
      { native := some m, supportedFlag := true,
        importErrorMsg := none, defaultState := none }
  | .error e =>
      { native := none, supportedFlag := false,
        importErrorMsg := some (formatExc e), defaultState := none }

/-- `supported()` (lines 113-120): returns `_SUPPORTED`. -/
def supported (mod : PyModule) : Bool :=
  mod.supportedFlag

/-- `import_error()` (lines 123-130): returns `_IMPORT_ERROR`. -/
def import_error (mod : PyModule) : Option String :=
  mod.importErrorMsg

/-- An attribute access `_libbacktrace.f(...)`: raises `AttributeError` when
the native module is the `None` placeholder, otherwise computes `f` on it. -/
def PyModule.callNative {α : Type} (mod : PyModule) (f : NativeModule → α) :
    Except PyError α :=
  match mod.native with
  | some m => .ok (f m)
  | none => .error .attributeError

/-- `BacktraceState.__init__` (lines 72-82): raises
`RuntimeError("libbacktrace not supported on this platform")` when
`_SUPPORTED` is false, otherwise stores the native state handle. -/
def BacktraceState.init (mod : PyModule) (filename : Option String)
    (threaded : Bool) : Except PyError BacktraceState :=
  if mod.supportedFlag = false then
    .error (.runtimeError "libbacktrace not supported on this platform")
  else
    mod.callNative fun m => ⟨m.create_state filename threaded⟩

/-- `create_state` (lines 133-144): constructs a `BacktraceState`. -/
def create_state (mod : PyModule) (filename : Option String)
    (threaded : Bool) : Except PyError BacktraceState :=
  BacktraceState.init mod filename threaded

/-- The list comprehension of lines 95-98: wraps each raw tuple into a
`BacktraceFrame`. -/
def mkFrames (raw : List RawFrame) : List BacktraceFrame :=
  raw.map fun f => { pc := f.1, function := f.2.1,
                     filename := f.2.2.1, lineno := f.2.2.2 }

/-- `BacktraceState.get_backtrace` (lines 84-98): calls
`_libbacktrace.backtrace_full(self._state, skip + 1)` and wraps the raw
tuples into `BacktraceFrame`s. -/
def BacktraceState.get_backtrace (mod : PyModule) (st : BacktraceState)
    (skip : Nat) : Except PyError (List BacktraceFrame) :=
  (mod.callNative fun m => m.backtrace_full st.stateHandle (skip + 1)).map
    mkFrames

/-- `_get_default_state` (lines 105-110): returns the cached default state,
constructing (and storing) it on first use.  When construction raises, the
global is left untouched. -/
def get_default_state (mod : PyModule) :
    Except PyError (BacktraceState × PyModule) :=
  match mod.defaultState with
  | some st => .ok (st, mod)
  | none =>
      (BacktraceState.init mod none true).map fun st =>
        (st, { mod with defaultState := some st })

/-- Module-level `get_backtrace` (lines 147-162): returns `[]` when not
supported, otherwise `_get_default_state().get_backtrace(skip + 1)`.  The
second component is the module state after the call (the default state may
have been created). -/
def get_backtrace (mod : PyModule) (skip : Nat) :
    Except PyError (List BacktraceFrame) × PyModule :=
  if mod.supportedFlag = false then (.ok [], mod)
  else
    match get_default_state mod with
    | .error e => (.error e, mod)
    | .ok (st, mod1) => (BacktraceState.get_backtrace mod1 st (skip + 1), mod1)

/-- The printing loop of `print_backtrace` (lines 176-182): the "not
available" message when there are no frames, otherwise one numbered
`  #<i> <frame>` line per frame. -/
def renderPrinted (frames : List BacktraceFrame) : List String :=
  if frames = [] then ["  (native backtrace not available)"]
  else frames.enum.map fun p => "  #" ++ toString p.1 ++ " " ++ p.2.str

/-- `print_backtrace` (lines 165-182), with the lines written to the output
file modelled as a list of strings: calls `get_backtrace(skip + 1)` and
renders the result with `renderPrinted`. -/
def print_backtrace (mod : PyModule) (skip : Nat) :
    Except PyError (List String) × PyModule :=
  match get_backtrace mod (skip + 1) with
  | (.error e, mod1) => (.error e, mod1)
  | (.ok frames, mod1) => (.ok (renderPrinted frames), mod1)

/-- `get_signals` (lines 202-211): `[]` when not supported, otherwise the
native list. -/
def get_signals (mod : PyModule) : Except PyError (List String) :=
  if mod.supportedFlag = false then .ok []
  else mod.callNative fun m => m.get_signals

/-- `get_default_signals` (lines 214-223): `[]` when not supported, otherwise
the native list. -/
def get_default_signals (mod : PyModule) : Except PyError (List String) :=
  if mod.supportedFlag = false then .ok []
  else mod.callNative fun m => m.get_default_signals

/-- Modelled from the spec: the process-wide fault-handler registration state
kept by the native extension — a singleton activation flag plus the active
configuration (signal set and optional report path), which exists only while
the handler is enabled. -/
structure FaultHandlerState where
  enabled : Bool
  signals : List String
  reportPath : Option String
deriving DecidableEq

/-- Modelled from the spec: the fixed default subset of signals used when the
caller specifies none (segmentation violation, abort, floating-point
exception, bus error). -/
def defaultSignals : List String :=
  ["SIGSEGV", "SIGABRT", "SIGFPE", "SIGBUS"]

/-- Modelled from the spec: `_libbacktrace.enable_faulthandler` on a supported
platform — installs handlers for the requested signals (the default set when
none are given), replacing any active configuration, and returns true. -/
def nativeEnableFaulthandler (_fh : FaultHandlerState)
    (signals : Option (List String)) (reportPath : Option String) :
    Bool × FaultHandlerState :=
  (true, { enabled := true, signals := signals.getD defaultSignals,
           reportPath := reportPath })

/-- Modelled from the spec: `_libbacktrace.disable_faulthandler` on a
supported platform — restores the recorded previous dispositions, clears the
active configuration, and returns true; calling it while already disabled is
a no-op that still returns true. -/
def nativeDisableFaulthandler (_fh : FaultHandlerState) :
    Bool × FaultHandlerState :=
  (true, { enabled := false, signals := [], reportPath := none })

/-- Modelled from the spec: `_libbacktrace.faulthandler_enabled` — reflects
the current registration state. -/
def nativeFaulthandlerEnabled (fh : FaultHandlerState) : Bool :=
  fh.enabled

/-- `enable_faulthandler` wrapper (lines 226-262): `False` when not
supported, otherwise delegates to the native extension, which acts on the
process-global registration state. -/
def enable_faulthandler (mod : PyModule) (fh : FaultHandlerState)
    (signals : Option (List String)) (reportPath : Option String) :
    Except PyError (Bool × FaultHandlerState) :=
  if mod.supportedFlag = false then .ok (false, fh)
  else mod.callNative fun _ => nativeEnableFaulthandler fh signals reportPath

/-- `disable_faulthandler` wrapper (lines 265-274): `False` when not
supported, otherwise delegates to the native extension. -/
def disable_faulthandler (mod : PyModule) (fh : FaultHandlerState) :
    Except PyError (Bool × FaultHandlerState) :=
  if mod.supportedFlag = false then .ok (false, fh)
  else mod.callNative fun _ => nativeDisableFaulthandler fh

/-- `faulthandler_enabled` wrapper (lines 277-286): `False` when not
supported, otherwise the native registration flag. -/
def faulthandler_enabled (mod : PyModule) (fh : FaultHandlerState) :
    Except PyError Bool :=
  if mod.supportedFlag = false then .ok false
  else mod.callNative fun _ => nativeFaulthandlerEnabled fh

/-- Modelled from the spec: the unwinder's fixed maximum depth. -/
def BACKTRACE_MAX_FRAMES : Nat := 128

/-- Modelled from the spec: the native unwinder behind
`_libbacktrace.backtrace_full`.  `stack` is the full raw unwind, innermost
frame first; `skip` frames are discarded from the top and the result is
silently truncated at the fixed maximum depth of 128 rather than failing. -/
def unwindCapture (stack : List RawFrame) (skip : Nat) : List RawFrame :=
  (stack.drop skip).take BACKTRACE_MAX_FRAMES

/-- Discriminator for the spec taxonomy's dedicated initialization-error
type: true exactly when the computation failed with
`PyError.initializationError`. -/
def raisesInitializationError {α : Type} : Except PyError α → Bool
  | .error (.initializationError _) => true
  | _ => false

/-! Auxiliary facts about the hex rendering used by `BacktraceFrame.str`. -/

lemma digitChar_hex {m : Nat} (hm : m < 16) :
    isHexDigitLower (Nat.digitChar m) = true := by
  have h : ∀ m, m < 16 → isHexDigitLower (Nat.digitChar m) = true := by decide
  exact h m hm

lemma digitChar_ne_zero {m : Nat} (h1 : 1 ≤ m) (hm : m < 16) :
    Nat.digitChar m ≠ '0' := by
  have h : ∀ m, m < 16 → 1 ≤ m → Nat.digitChar m ≠ '0' := by decide
  exact h m hm h1

lemma toDigitsCore_hex_chars : ∀ (fuel n : Nat) (ds : List Char),
    (∀ c ∈ ds, isHexDigitLower c = true) →
    ∀ c ∈ Nat.toDigitsCore 16 fuel n ds, isHexDigitLower c = true := by
  intro fuel
  induction fuel with
  | zero =>
      intro n ds hds c hc
      exact hds c hc
  | succ f ih =>
      intro n ds hds c hc
      rw [Nat.toDigitsCore] at hc
      by_cases h0 : n / 16 = 0
      · simp only [h0, if_pos] at hc
        rcases List.mem_cons.mp hc with h | h
        · subst h
          exact digitChar_hex (Nat.mod_lt n (by decide))
        · exact hds c h
      · simp only [h0, if_neg, if_false] at hc
        refine ih (n / 16) (Nat.digitChar (n % 16) :: ds) ?_ c hc
        intro d hd
        rcases List.mem_cons.mp hd with h | h
        · subst h
          exact digitChar_hex (Nat.mod_lt n (by decide))
        · exact hds d h

lemma toDigitsCore_head_ne_zero : ∀ (fuel n : Nat) (ds : List Char),
    n < fuel → 1 ≤ n →
    ∃ c t, Nat.toDigitsCore 16 fuel n ds = c :: t ∧ c ≠ '0' := by
  intro fuel
  induction fuel with
  | zero =>
      intro n ds hn h1
      omega
  | succ f ih =>
      intro n ds hn h1
      rw [Nat.toDigitsCore]
      by_cases h0 : n / 16 = 0
      · have hlt : n < 16 := (Nat.div_eq_zero_iff (by decide)).mp h0
        have hmod : n % 16 = n := Nat.mod_eq_of_lt hlt
        refine ⟨Nat.digitChar (n % 16), ds, by simp [h0], ?_⟩
        rw [hmod]
        exact digitChar_ne_zero h1 hlt
      · have hdiv : n / 16 < n := Nat.div_lt_self h1 (by decide)
        have hfuel : n / 16 < f := by omega
        have h1d : 1 ≤ n / 16 := Nat.pos_of_ne_zero h0
        obtain ⟨c, t, hct, hc0⟩ :=
          ih (n / 16) (Nat.digitChar (n % 16) :: ds) hfuel h1d
        exact ⟨c, t, by simp [h0, hct], hc0⟩

lemma hexStr_data (n : Nat) : (hexStr n).data = Nat.toDigits 16 n := rfl

lemma hexStr_chars (n : Nat) : (hexStr n).data.all isHexDigitLower = true := by
  rw [List.all_eq_true]
  intro c hc
  rw [hexStr_data, Nat.toDigits] at hc
  exact toDigitsCore_hex_chars (n + 1) n [] (by simp) c hc

lemma hexStr_head_zero_iff (n : Nat) :
    (hexStr n).data.head? = some '0' ↔ n = 0 := by
  constructor
  · intro h
    by_contra hne
    obtain ⟨c, t, hct, hc0⟩ :=
      toDigitsCore_head_ne_zero (n + 1) n [] (Nat.lt_succ_self n)
        (Nat.pos_of_ne_zero hne)
    rw [hexStr_data, Nat.toDigits, hct] at h
    exact hc0 (by simpa using h)
  · intro h
    subst h
    rfl

/-! Concrete fixtures used by the witness theorems. -/

/-- A module state produced by a failed native import: the unsupported
platform configuration. -/
def modUnsupported : PyModule :=
  moduleImport (.error ⟨"ImportError", "No module named _libbacktrace"⟩)

/-- A concrete native extension used to instantiate the supported-platform
theorems. -/
def nmW : NativeModule :=
  { create_state := fun _ _ => 7,
    backtrace_full := fun h s => [(h + s, some "main", some "main.c", s)],
    get_signals := ["SIGSEGV", "SIGABRT", "SIGFPE", "SIGBUS", "SIGILL",
                    "SIGTRAP", "SIGSYS"],
    get_default_signals := defaultSignals }

/-- A concrete wrapper state holding the handle produced by `nmW`. -/
def stW : BacktraceState := ⟨7⟩

/-- A module state on a supported platform with the default state already
created. -/
def modSupported : PyModule :=
  { native := some nmW, supportedFlag := true, importErrorMsg := none,
    defaultState := some stW }

/-- A concrete enabled fault-handler registration. -/
def fhW : FaultHandlerState :=
  { enabled := true, signals := defaultSignals, reportPath := none }

/-- A concrete three-frame raw unwind. -/
def stackW : List RawFrame :=
  [(1, some "a", none, 0), (2, some "b", none, 0), (3, some "c", none, 0)]

/-- A concrete raw unwind exactly at the 128-frame cap. -/
def stackCap : List RawFrame :=
  List.replicate BACKTRACE_MAX_FRAMES (4, none, none, 0)

/-! Claim theorems. -/

/-- C1 counterexample: a frame whose `function` and `filename` are both set
(`function = some "f"`, `filename = some ""`) does not render in the
`<function> at <filename>:<line>` shape the claim requires for that case;
the truthiness test on `filename` selects the hex-pc shape instead. -/
theorem frame_render_both_set_claim_false :
    BacktraceFrame.str ⟨5, some "f", some "", 3⟩ = "f at 0x5"
  ∧ BacktraceFrame.str ⟨5, some "f", some "", 3⟩ ≠ "f at :3" := by
  exact ⟨rfl, by decide⟩

/-- C1 (amended): the rendering shapes hold with "set" strengthened to "set
to a non-empty string" (the code tests Python truthiness, under which an
empty string counts as absent): with non-empty function and filename the
frame renders as `<function> at <filename>:<line>`; with non-empty function
and an unset-or-empty filename as `<function> at 0x<pc>` where the pc
payload is lowercase hex without leading zeros; with an unset-or-empty
function, `??` appears in place of the function name, under both filename
shapes.  `fn2` ranges over the unset-or-empty function values and `file2`
over the unset-or-empty filename values. -/
theorem frame_render_shapes_amended (pc lineno : Nat) (fn fname : String)
    (fn2 file2 : Option String) (hfn : fn ≠ "") (hfname : fname ≠ "")
    (hfn2 : fn2 = none ∨ fn2 = some "")
    (hfile2 : file2 = none ∨ file2 = some "") :
    BacktraceFrame.str ⟨pc, some fn, some fname, lineno⟩
      = fn ++ " at " ++ fname ++ ":" ++ toString lineno
  ∧ BacktraceFrame.str ⟨pc, some fn, file2, lineno⟩
      = fn ++ " at 0x" ++ hexStr pc
  ∧ BacktraceFrame.str ⟨pc, fn2, some fname, lineno⟩
      = "??" ++ " at " ++ fname ++ ":" ++ toString lineno
  ∧ BacktraceFrame.str ⟨pc, fn2, file2, lineno⟩
      = "??" ++ " at 0x" ++ hexStr pc
  ∧ (hexStr pc).data.all isHexDigitLower = true
  ∧ ((hexStr pc).data.head? = some '0' ↔ pc = 0) := by
  rcases hfn2 with rfl | rfl <;> rcases hfile2 with rfl | rfl <;>
    refine ⟨?_, ?_, ?_, ?_, hexStr_chars pc, hexStr_head_zero_iff pc⟩ <;>
    simp [BacktraceFrame.str, pyTruthyStr, hfn, hfname]

/-- Witness for the amended C1 theorem at pc 255, line 7, function `f`,
filename `g`, with the empty string for the unset-or-empty cases. -/
theorem frame_render_shapes_amended_witness :
    BacktraceFrame.str ⟨255, some "f", some "g", 7⟩
      = "f" ++ " at " ++ "g" ++ ":" ++ toString 7
  ∧ BacktraceFrame.str ⟨255, some "f", some "", 7⟩
      = "f" ++ " at 0x" ++ hexStr 255
  ∧ BacktraceFrame.str ⟨255, some "", some "g", 7⟩
      = "??" ++ " at " ++ "g" ++ ":" ++ toString 7
  ∧ BacktraceFrame.str ⟨255, some "", some "", 7⟩
      = "??" ++ " at 0x" ++ hexStr 255
  ∧ (hexStr 255).data.all isHexDigitLower = true
  ∧ ((hexStr 255).data.head? = some '0' ↔ 255 = 0) :=
  frame_render_shapes_amended 255 7 "f" "g" (some "") (some "")
    (by decide) (by decide) (Or.inr rfl) (Or.inr rfl)

/-- C10: a frame with `function` unset and a non-empty `filename` renders as
`?? at <filename>:<lineno>`, and the filename test is truthiness: an
empty-string filename renders exactly like an absent one (the hex-pc
shape). -/
theorem frame_render_fourth_shape (pc pc2 lineno lineno2 : Nat)
    (fn : Option String) (fname : String) (hfname : fname ≠ "") :
    BacktraceFrame.str ⟨pc, none, some fname, lineno⟩
      = "??" ++ " at " ++ fname ++ ":" ++ toString lineno
  ∧ BacktraceFrame.str ⟨pc2, fn, some "", lineno2⟩
      = BacktraceFrame.str ⟨pc2, fn, none, lineno2⟩ := by
  constructor
  · simp [BacktraceFrame.str, pyTruthyStr, hfname]
  · simp [BacktraceFrame.str, pyTruthyStr]

/-- Witness for C10 at concrete frames. -/
theorem frame_render_fourth_shape_witness :
    BacktraceFrame.str ⟨5, none, some "g", 3⟩
      = "??" ++ " at " ++ "g" ++ ":" ++ toString 3
  ∧ BacktraceFrame.str ⟨5, some "f", some "", 0⟩
      = BacktraceFrame.str ⟨5, some "f", none, 0⟩ :=
  frame_render_fourth_shape 5 5 3 0 (some "f") "g" (by decide)

/-- C9: after module import, `supported()` returns true exactly when
`import_error()` returns `None`: the two globals are set consistently by the
single import guard, whatever the import outcome. -/
theorem supported_iff_import_error_none (r : Except PyExc NativeModule) :
    supported (moduleImport r) = true ↔ import_error (moduleImport r) = none := by
  cases r <;> simp [moduleImport, supported, import_error]

/-- C2 counterexample: on an unsupported platform `create_state` fails with
the generic built-in `RuntimeError`, not with a dedicated
initialization-error type. -/
theorem create_state_unsupported_not_initialization_error :
    create_state modUnsupported none true
      = .error (.runtimeError "libbacktrace not supported on this platform")
  ∧ raisesInitializationError (create_state modUnsupported none true) = false := by
  exact ⟨rfl, rfl⟩

/-- C2 (amended): on a platform whose native support is unavailable, state
creation (`create_state` / `BacktraceState` construction) fails by raising
Python's built-in `RuntimeError` with the message "libbacktrace not
supported on this platform"; the wrapper defines no dedicated
initialization-error type. -/
theorem create_state_unsupported_runtime_error (mod : PyModule)
    (filename : Option String) (threaded : Bool)
    (h : mod.supportedFlag = false) :
    create_state mod filename threaded
      = .error (.runtimeError "libbacktrace not supported on this platform") := by
  simp [create_state, BacktraceState.init, h]

/-- Witness for the amended C2 theorem on the concrete unsupported module. -/
theorem create_state_unsupported_runtime_error_witness :
    create_state modUnsupported (some "/bin/ls") false
      = .error (.runtimeError "libbacktrace not supported on this platform") :=
  create_state_unsupported_runtime_error modUnsupported (some "/bin/ls") false rfl

/-- C3: on an unsupported platform every public operation other than state
creation returns its documented empty/false value without raising:
`get_backtrace` returns `[]`, the three fault-handler operations return
`False`, and the two signal queries return `[]`. -/
theorem unsupported_operations_graceful (mod : PyModule)
    (fh : FaultHandlerState) (skip : Nat) (sigs : Option (List String))
    (rp : Option String) (h : mod.supportedFlag = false) :
    (get_backtrace mod skip).1 = .ok []
  ∧ enable_faulthandler mod fh sigs rp = .ok (false, fh)
  ∧ disable_faulthandler mod fh = .ok (false, fh)
  ∧ faulthandler_enabled mod fh = .ok false
  ∧ get_signals mod = .ok []
  ∧ get_default_signals mod = .ok [] := by
  refine ⟨?_, ?_, ?_, ?_, ?_, ?_⟩ <;>
    simp [get_backtrace, enable_faulthandler, disable_faulthandler,
          faulthandler_enabled, get_signals, get_default_signals, h]

/-- Witness for C3 on the concrete unsupported module. -/
theorem unsupported_operations_graceful_witness :
    (get_backtrace modUnsupported 0).1 = .ok []
  ∧ enable_faulthandler modUnsupported fhW none none = .ok (false, fhW)
  ∧ disable_faulthandler modUnsupported fhW = .ok (false, fhW)
  ∧ faulthandler_enabled modUnsupported fhW = .ok false
  ∧ get_signals modUnsupported = .ok []
  ∧ get_default_signals modUnsupported = .ok [] :=
  unsupported_operations_graceful modUnsupported fhW 0 none none rfl

/-- C4: each wrapper layer adds exactly one extra skip to exclude its own
frame: the `BacktraceState.get_backtrace` method hands `skip + 1` to the raw
unwind, the module-level `get_backtrace` hands `skip + 1` to the method (so
the raw unwind receives `skip + 2`), and `print_backtrace` hands `skip + 1`
to the module-level function (so the raw unwind receives `skip + 3`). -/
theorem skip_layering (mod : PyModule) (nm : NativeModule)
    (st : BacktraceState) (skip : Nat) (hs : mod.supportedFlag = true)
    (hn : mod.native = some nm) (hd : mod.defaultState = some st) :
    BacktraceState.get_backtrace mod st skip
      = .ok (mkFrames (nm.backtrace_full st.stateHandle (skip + 1)))
  ∧ (get_backtrace mod skip).1 = BacktraceState.get_backtrace mod st (skip + 1)
  ∧ (get_backtrace mod skip).1
      = .ok (mkFrames (nm.backtrace_full st.stateHandle (skip + 2)))
  ∧ (print_backtrace mod skip).1
      = .ok (renderPrinted (mkFrames (nm.backtrace_full st.stateHandle (skip + 3)))) := by
  refine ⟨?_, ?_, ?_, ?_⟩ <;>
    simp [BacktraceState.get_backtrace, PyModule.callNative, get_backtrace,
          get_default_state, print_backtrace, Except.map, hs, hn, hd]

/-- Witness for C4 on the concrete supported module at skip 0. -/
theorem skip_layering_witness :
    BacktraceState.get_backtrace modSupported stW 0
      = .ok (mkFrames (nmW.backtrace_full stW.stateHandle 1))
  ∧ (get_backtrace modSupported 0).1
      = BacktraceState.get_backtrace modSupported stW 1
  ∧ (get_backtrace modSupported 0).1
      = .ok (mkFrames (nmW.backtrace_full stW.stateHandle 2))
  ∧ (print_backtrace modSupported 0).1
      = .ok (renderPrinted (mkFrames (nmW.backtrace_full stW.stateHandle 3))) :=
  skip_layering modSupported nmW stW 0 rfl rfl rfl

/-- C5: capture with one more skipped frame never yields more frames, and
yields strictly fewer when the remaining unwind depth is neither zero nor
beyond the 128-frame cap. -/
theorem capture_skip_monotone (stack : List RawFrame) (skip : Nat) :
    (unwindCapture stack (skip + 1)).length ≤ (unwindCapture stack skip).length
  ∧ (0 < stack.length - skip → stack.length - skip ≤ BACKTRACE_MAX_FRAMES →
      (unwindCapture stack (skip + 1)).length
        < (unwindCapture stack skip).length) := by
  unfold unwindCapture BACKTRACE_MAX_FRAMES
  constructor
  · simp only [List.length_take, List.length_drop]
    omega
  · intro h1 h2
    simp only [List.length_take, List.length_drop]
    omega

/-- Witness for C5 on a three-frame unwind at skip 1. -/
theorem capture_skip_monotone_witness :
    (unwindCapture stackW 2).length ≤ (unwindCapture stackW 1).length
  ∧ (unwindCapture stackW 2).length < (unwindCapture stackW 1).length :=
  ⟨(capture_skip_monotone stackW 1).1,
   (capture_skip_monotone stackW 1).2 (by decide) (by decide)⟩

/-- C6: every capture is a bounded ordered sequence, innermost first: at most
128 frames, an order-preserving prefix of the frames remaining after the
skip, equal to all remaining frames when they fit under the cap, and
silently truncated to exactly 128 frames when they do not. -/
theorem capture_bounded_truncation (stack : List RawFrame) (skip : Nat) :
    (unwindCapture stack skip).length ≤ BACKTRACE_MAX_FRAMES
  ∧ unwindCapture stack skip <+: stack.drop skip
  ∧ (stack.length - skip ≤ BACKTRACE_MAX_FRAMES →
      unwindCapture stack skip = stack.drop skip)
  ∧ (BACKTRACE_MAX_FRAMES ≤ stack.length - skip →
      (unwindCapture stack skip).length = BACKTRACE_MAX_FRAMES) := by
  refine ⟨?_, List.take_prefix _ _, ?_, ?_⟩
  · simp only [unwindCapture, List.length_take, List.length_drop]
    omega
  · intro h
    apply List.take_of_length_le
    simpa using h
  · intro h
    simp only [unwindCapture, List.length_take, List.length_drop]
    omega

/-- Witness for C6 on an unwind of exactly 128 frames at skip 0. -/
theorem capture_bounded_truncation_witness :
    (unwindCapture stackCap 0).length ≤ BACKTRACE_MAX_FRAMES
  ∧ unwindCapture stackCap 0 <+: stackCap.drop 0
  ∧ unwindCapture stackCap 0 = stackCap.drop 0
  ∧ (unwindCapture stackCap 0).length = BACKTRACE_MAX_FRAMES :=
  ⟨(capture_bounded_truncation stackCap 0).1,
   (capture_bounded_truncation stackCap 0).2.1,
   (capture_bounded_truncation stackCap 0).2.2.1
     (by simp [stackCap, BACKTRACE_MAX_FRAMES]),
   (capture_bounded_truncation stackCap 0).2.2.2
     (by simp [stackCap, BACKTRACE_MAX_FRAMES])⟩

/-- C7: on a supported platform `disable_faulthandler` returns true, leaves
the registration disabled, and calling it again from the disabled state is a
no-op that returns true as well. -/
theorem disable_faulthandler_idempotent (mod : PyModule) (nm : NativeModule)
    (fh : FaultHandlerState) (hs : mod.supportedFlag = true)
    (hn : mod.native = some nm) :
    disable_faulthandler mod fh = .ok (true, (nativeDisableFaulthandler fh).2)
  ∧ (nativeDisableFaulthandler fh).2.enabled = false
  ∧ disable_faulthandler mod (nativeDisableFaulthandler fh).2
      = .ok (true, (nativeDisableFaulthandler fh).2) := by
  refine ⟨?_, rfl, ?_⟩ <;>
    simp [disable_faulthandler, PyModule.callNative, nativeDisableFaulthandler,
          hs, hn]

/-- Witness for C7 on the concrete supported module with the handler
enabled. -/
theorem disable_faulthandler_idempotent_witness :
    disable_faulthandler modSupported fhW
      = .ok (true, (nativeDisableFaulthandler fhW).2)
  ∧ (nativeDisableFaulthandler fhW).2.enabled = false
  ∧ disable_faulthandler modSupported (nativeDisableFaulthandler fhW).2
      = .ok (true, (nativeDisableFaulthandler fhW).2) :=
  disable_faulthandler_idempotent modSupported nmW fhW rfl rfl

/-- C8: on a supported platform a successful `enable_faulthandler` makes
`faulthandler_enabled` report true, and `disable_faulthandler` makes it
report false: the query reflects the registration state. -/
theorem faulthandler_enabled_reflects_state (mod : PyModule)
    (nm : NativeModule) (fh : FaultHandlerState) (sigs : Option (List String))
    (rp : Option String) (hs : mod.supportedFlag = true)
    (hn : mod.native = some nm) :
    enable_faulthandler mod fh sigs rp
      = .ok (true, (nativeEnableFaulthandler fh sigs rp).2)
  ∧ faulthandler_enabled mod (nativeEnableFaulthandler fh sigs rp).2 = .ok true
  ∧ disable_faulthandler mod fh = .ok (true, (nativeDisableFaulthandler fh).2)
  ∧ faulthandler_enabled mod (nativeDisableFaulthandler fh).2 = .ok false := by
  refine ⟨?_, ?_, ?_, ?_⟩ <;>
    simp [enable_faulthandler, disable_faulthandler, faulthandler_enabled,
          PyModule.callNative, nativeEnableFaulthandler,
          nativeDisableFaulthandler, nativeFaulthandlerEnabled, hs, hn]

/-- Witness for C8 on the concrete supported module. -/
theorem faulthandler_enabled_reflects_state_witness :
    enable_faulthandler modSupported fhW none none
      = .ok (true, (nativeEnableFaulthandler fhW none none).2)
  ∧ faulthandler_enabled modSupported (nativeEnableFaulthandler fhW none none).2
      = .ok true
  ∧ disable_faulthandler modSupported fhW
      = .ok (true, (nativeDisableFaulthandler fhW).2)
  ∧ faulthandler_enabled modSupported (nativeDisableFaulthandler fhW).2
      = .ok false :=
  faulthandler_enabled_reflects_state modSupported nmW fhW none none rfl rfl

end LibBacktrace
